import Mathlib

/-!
# agon-vdp `video/agon_screen.h`: display-mode controller

A shallow embedding of the mode controller of `src/video/agon_screen.h`.

The file manipulates four globals (`canvas`, `_VGAController`, `_VGAColourDepth`,
`doubleBuffered`) and calls into fabgl.  fabgl is not part of the repository, so
every call into it is recorded as an `Event` on a trace held in the state, and
the two getters whose result the code inspects (`getScreenHeight`,
`getViewPortHeight`) are parameters (`FabGL`) that answer from the trace.

Objects created by `std::make_shared` are identified by an address (`id`) drawn
from an allocation counter `nextId`; a non-null `shared_ptr` is the address of
its target together with the target's dynamic class.  Comparison of two
`shared_ptr`s compares addresses.

Reads that change nothing (`getScreenHeight`, `getViewPortHeight`,
`heap_caps_get_free_size`) are not recorded on the trace.  A dereference of an
empty `shared_ptr` is undefined behaviour in C++; the two functions that can do
it return `Except Fault State`.

`uint8_t` values (`colours`, `l`, `_VGAColourDepth`) are natural numbers; the code
only compares them, and the one conversion (`_VGAColourDepth = -1`) is taken
modulo 256.  The theorems hold for every natural number, so in particular for
the 256 values the C++ type admits.
-/

namespace AgonScreen

/-- The five fabgl controller classes `getVGAController` can construct. -/
inductive ControllerClass
  | VGA2Controller
  | VGA4Controller
  | VGA8Controller
  | VGA16Controller
  | VGAController
  deriving DecidableEq

/-- The fabgl colour triple passed to `setPaletteItem`. -/
structure RGB888 where
  R : Nat
  G : Nat
  B : Nat
  deriving DecidableEq

/-- Target of a non-null `std::shared_ptr<fabgl::VGABaseController>`: the address of
the controller object and the class it was constructed as. -/
structure Controller where
  id : Nat
  cls : ControllerClass
  deriving DecidableEq

/-- Target of a non-null `std::shared_ptr<fabgl::Canvas>`: the address of the canvas
and the raw controller pointer (`controller.get()`) its constructor received. -/
structure Canvas where
  id : Nat
  displayController : Nat
  deriving DecidableEq

/-- The three `debug_log` call sites of `change_resolution`. -/
inductive LogMsg
  | modeLineIsNull
  | afterChangeOfCanvas
  | freeMemory
  deriving DecidableEq

/-- Calls that leave `agon_screen.h`, in program order. -/
inductive Event
  /-- Construction `std::make_shared<fabgl::VGA…Controller>()` -/
  | construct (c : Controller)
  /-- Release `_VGAController.reset()` of a non-null pointer ("Delete the old controller") -/
  | deleteController (id : Nat)
  /-- Call `->begin()` on the controller at `id` -/
  | begin (id : Nat)
  /-- Call `->end()` on the controller at `id` -/
  | end_ (id : Nat)
  /-- Call `->setResolution(modeLine, args…)`; `args` are the arguments written after
  `modeLine` at the call site (`[-1, -1, 1]` or none) -/
  | setResolution (id : Nat) (modeLine : String) (args : List Int)
  /-- Call `->enableBackgroundPrimitiveExecution(b)` -/
  | enableBackgroundPrimitiveExecution (id : Nat) (b : Bool)
  /-- Call `->enableBackgroundPrimitiveTimeout(b)` -/
  | enableBackgroundPrimitiveTimeout (id : Nat) (b : Bool)
  /-- Construction `std::make_shared<fabgl::Canvas>(controller.get())` -/
  | newCanvas (cv : Canvas)
  /-- Release `canvas.reset()` of a non-null pointer ("Delete the canvas") -/
  | deleteCanvas (id : Nat)
  /-- Call `canvas->swapBuffers()` -/
  | swapBuffers (canvas : Nat)
  /-- Call `canvas->waitCompletion(waitForVSync)` -/
  | waitCompletion (canvas : Nat) (waitForVSync : Bool)
  /-- Call `fabgl::VGA…Controller::instance()->setPaletteItem(l, c)` -/
  | setPaletteItem (cls : ControllerClass) (l : Nat) (c : RGB888)
  /-- Call `fabgl::VGA…Controller::instance()->updateRGB2PaletteLUT()` -/
  | updateRGB2PaletteLUT (cls : ControllerClass)
  /-- Call `debug_log(…)` -/
  | debug_log (msg : LogMsg)
  deriving DecidableEq

/-- Conversion of an `int` initialiser to `uint8_t`. -/
def uint8_t (i : Int) : Nat := (i % 256).toNat

/-- The globals of `agon_screen.h`, the allocation counter and the event trace. -/
structure State where
  /-- Global `std::shared_ptr<fabgl::Canvas> canvas` -/
  canvas : Option Canvas
  /-- Global `std::shared_ptr<fabgl::VGABaseController> _VGAController` -/
  _VGAController : Option Controller
  /-- Global `uint8_t _VGAColourDepth` -/
  _VGAColourDepth : Nat
  /-- Global `bool doubleBuffered` -/
  doubleBuffered : Bool
  /-- Next free address for `make_shared` -/
  nextId : Nat
  /-- Calls made so far -/
  trace : List Event
  deriving DecidableEq

/-- The state at program start: both pointers null, `_VGAColourDepth = -1`,
`doubleBuffered = false`. -/
def State.init : State :=
  { canvas := none
    _VGAController := none
    _VGAColourDepth := uint8_t (-1)
    doubleBuffered := false
    nextId := 0
    trace := [] }

/-- The fabgl getters whose value `change_resolution` reads.  The object's internal
state is not visible here, so each answers from the controller and the calls made
so far. -/
structure FabGL where
  getScreenHeight : Controller → List Event → Int
  getViewPortHeight : Controller → List Event → Int

/-- Undefined behaviour the code can run into. -/
inductive Fault
  /-- Dereference `canvas->…` with `canvas` an empty `shared_ptr` -/
  | nullCanvas
  deriving DecidableEq

/-- Record one call. -/
def emit (e : Event) (s : State) : State :=
  { s with trace := s.trace ++ [e] }

/-- Expression `std::make_shared<cls>()`: a new controller object at a fresh address. -/
def make_shared_controller (cls : ControllerClass) (s : State) : Option Controller × State :=
  (some ⟨s.nextId, cls⟩,
    { s with nextId := s.nextId + 1, trace := s.trace ++ [Event.construct ⟨s.nextId, cls⟩] })

/-- Function `getVGAController(colours)`, lines 19-32. -/
def getVGAController (colours : Nat) (s : State) : Option Controller × State :=
  if s._VGAController.isSome && colours == s._VGAColourDepth then
    (s._VGAController, s)
  else
    match colours with
    | 2 => make_shared_controller .VGA2Controller s
    | 4 => make_shared_controller .VGA4Controller s
    | 8 => make_shared_controller .VGA8Controller s
    | 16 => make_shared_controller .VGA16Controller s
    | 64 => make_shared_controller .VGAController s
    | _ => (none, s)

/-- Function `updateRGB2PaletteLUT()`, lines 36-44. -/
def updateRGB2PaletteLUT (s : State) : State :=
  match s._VGAColourDepth with
  | 2 => emit (.updateRGB2PaletteLUT .VGA2Controller) s
  | 4 => emit (.updateRGB2PaletteLUT .VGA4Controller) s
  | 8 => emit (.updateRGB2PaletteLUT .VGA8Controller) s
  | 16 => emit (.updateRGB2PaletteLUT .VGA16Controller) s
  | _ => s

/-- Function `getVGAColourDepth()`, lines 48-50. -/
def getVGAColourDepth (s : State) : Nat := s._VGAColourDepth

/-- Function `setPaletteItem(l, c)`, lines 57-68. -/
def setPaletteItem (l : Nat) (c : RGB888) (s : State) : State :=
  let depth := getVGAColourDepth s
  if l < depth then
    match depth with
    | 2 => emit (.setPaletteItem .VGA2Controller l c) s
    | 4 => emit (.setPaletteItem .VGA4Controller l c) s
    | 8 => emit (.setPaletteItem .VGA8Controller l c) s
    | 16 => emit (.setPaletteItem .VGA16Controller l c) s
    | _ => s
  else s

/-- Statement `canvas.reset()`, line 85. -/
def canvas_reset (s : State) : State :=
  match s.canvas with
  | some cv => { s with canvas := none, trace := s.trace ++ [Event.deleteCanvas cv.id] }
  | none => s

/-- Statement `_VGAController.reset()`, line 92.  It runs only where the local `controller`
is a different object, so a non-null target loses its last owner here. -/
def VGAController_reset (s : State) : State :=
  match s._VGAController with
  | some old =>
    { s with _VGAController := none, trace := s.trace ++ [Event.deleteController old.id] }
  | none => s

/-- Statement `canvas = std::make_shared<fabgl::Canvas>(controller.get())`, line 108. -/
def make_shared_canvas (c : Controller) (s : State) : State :=
  { s with
    canvas := some ⟨s.nextId, c.id⟩
    nextId := s.nextId + 1
    trace := s.trace ++ [Event.newCanvas ⟨s.nextId, c.id⟩] }

/-- Lines 88-95: switch to `c` when it is not the object `_VGAController` points at. -/
def switchController (c : Controller) (s : State) : State :=
  if s._VGAController.map (·.id) ≠ some c.id then
    let s := match s._VGAController with
      | some old => emit (.end_ old.id) s
      | none => s
    let s := VGAController_reset s
    let s := { s with _VGAController := some c }
    emit (.begin c.id) s
  else s

/-- Lines 96-104: apply the mode line, or log that there is none. -/
def applyModeLine (c : Controller) (modeLine : Option String) (s : State) : State :=
  match modeLine with
  | some m =>
    if s.doubleBuffered == true then
      emit (.setResolution c.id m [-1, -1, 1]) s
    else
      emit (.setResolution c.id m []) s
  | none => emit (.debug_log .modeLineIsNull) s

/-- Function `change_resolution(colours, modeLine)`, lines 79-122.  `modeLine = none` is the
null pointer.  Returns the `int8_t` result and the state afterwards. -/
def change_resolution (fab : FabGL) (colours : Nat) (modeLine : Option String)
    (s : State) : Int × State :=
  match getVGAController colours s with
  | (none, s) => (1, s)
  | (some controller, s) =>
    let s := canvas_reset s
    let s := { s with _VGAColourDepth := colours }
    let s := switchController controller s
    let s := applyModeLine controller modeLine s
    let s := emit (.enableBackgroundPrimitiveExecution controller.id true) s
    let s := emit (.enableBackgroundPrimitiveTimeout controller.id false) s
    let s := make_shared_canvas controller s
    let s := emit (.debug_log .afterChangeOfCanvas) s
    let s := emit (.debug_log .freeMemory) s
    if fab.getScreenHeight controller s.trace ≠ fab.getViewPortHeight controller s.trace then
      (2, s)
    else
      (0, s)

/-- Function `switchBuffer()`, lines 126-130. -/
def switchBuffer (s : State) : Except Fault State :=
  if s.doubleBuffered == true then
    match s.canvas with
    | some cv => .ok (emit (.swapBuffers cv.id) s)
    | none => .error .nullCanvas
  else .ok s

/-- Function `waitPlotCompletion(waitForVSync)`, lines 134-136. -/
def waitPlotCompletion (waitForVSync : Bool) (s : State) : Except Fault State :=
  match s.canvas with
  | some cv => .ok (emit (.waitCompletion cv.id waitForVSync) s)
  | none => .error .nullCanvas

/-! ## Vocabulary of the properties -/

/-- Colour depths that have a case in the `switch` of `getVGAController`. -/
def Supported (colours : Nat) : Prop :=
  colours = 2 ∨ colours = 4 ∨ colours = 8 ∨ colours = 16 ∨ colours = 64

instance (colours : Nat) : Decidable (Supported colours) := by
  unfold Supported; infer_instance

/-- Colour depth a controller class is constructed for: the `case` label that
constructs it in `getVGAController`. -/
def ControllerClass.colours : ControllerClass → Nat
  | .VGA2Controller => 2
  | .VGA4Controller => 4
  | .VGA8Controller => 8
  | .VGA16Controller => 16
  | .VGAController => 64

/-- Controller a driver method call is issued on (`begin`, `end`, `setResolution`,
`enableBackgroundPrimitive…`); `none` for every other event. -/
def Event.target : Event → Option Nat
  | .begin id => some id
  | .end_ id => some id
  | .setResolution id _ _ => some id
  | .enableBackgroundPrimitiveExecution id _ => some id
  | .enableBackgroundPrimitiveTimeout id _ => some id
  | _ => none

/-- The controller at `id` has had `begin()` called and never `end()`. -/
def Started (id : Nat) (tr : List Event) : Prop :=
  Event.begin id ∈ tr ∧ Event.end_ id ∉ tr

instance (id : Nat) (tr : List Event) : Decidable (Started id tr) := by
  unfold Started; infer_instance

/-- Effect of one event on the list of canvases that exist. -/
def canvasStep (live : List Canvas) : Event → List Canvas
  | .newCanvas cv => live ++ [cv]
  | .deleteCanvas id => live.filter (fun cv => cv.id ≠ id)
  | _ => live

/-- Canvases constructed and not yet deleted, read off the trace. -/
def liveCanvases (tr : List Event) : List Canvas :=
  tr.foldl canvasStep []

/-- Events the step from `s` to `t` added to the trace. -/
def newEvents (s t : State) : List Event :=
  t.trace.drop s.trace.length

/-- Events that come after the first occurrence of `e`. -/
def eventsAfter (e : Event) (tr : List Event) : List Event :=
  (tr.dropWhile (fun x => x ≠ e)).drop 1

/-- States the program can be in: the initial state, closed under the four
operations of the file (the two canvas operations only where they are defined) and
under a write to the global `doubleBuffered` by the caller. -/
inductive Reachable : State → Prop
  | init : Reachable State.init
  | change_resolution (fab : FabGL) (colours : Nat) (modeLine : Option String) (s : State) :
      Reachable s → Reachable (change_resolution fab colours modeLine s).2
  | setPaletteItem (l : Nat) (c : RGB888) (s : State) :
      Reachable s → Reachable (setPaletteItem l c s)
  | switchBuffer (s t : State) :
      Reachable s → switchBuffer s = .ok t → Reachable t
  | waitPlotCompletion (w : Bool) (s t : State) :
      Reachable s → waitPlotCompletion w s = .ok t → Reachable t
  | doubleBuffered (b : Bool) (s : State) :
      Reachable s → Reachable { s with doubleBuffered := b }

/-- States in which no mode has been applied: the initial state, after any number
of `change_resolution` calls that returned 1 and writes to `doubleBuffered`. -/
inductive NoModeApplied : State → Prop
  | init : NoModeApplied State.init
  | rejected (fab : FabGL) (colours : Nat) (modeLine : Option String) (s : State) :
      NoModeApplied s → (change_resolution fab colours modeLine s).1 = 1 →
      NoModeApplied (change_resolution fab colours modeLine s).2
  | doubleBuffered (b : Bool) (s : State) :
      NoModeApplied s → NoModeApplied { s with doubleBuffered := b }

/-- Lines 85-114 of `change_resolution`: the state after the new canvas and the two
log calls, for the controller `getVGAController` returned. -/
def modeApplied (controller : Controller) (colours : Nat) (modeLine : Option String)
    (s : State) : State :=
  emit (.debug_log .freeMemory) (emit (.debug_log .afterChangeOfCanvas)
    (make_shared_canvas controller
      (emit (.enableBackgroundPrimitiveTimeout controller.id false)
        (emit (.enableBackgroundPrimitiveExecution controller.id true)
          (applyModeLine controller modeLine
            (switchController controller
              { canvas_reset s with _VGAColourDepth := colours }))))))

/-- Event of lines 96-104 for mode line `modeLine` under buffering flag `db`. -/
def modeLineEvent (c : Controller) (modeLine : Option String) (db : Bool) : Event :=
  match modeLine with
  | some m => if db then .setResolution c.id m [-1, -1, 1] else .setResolution c.id m []
  | none => .debug_log .modeLineIsNull

/-- Events of `canvas.reset()` in state `s`. -/
def canvasResetEvents (s : State) : List Event :=
  match s.canvas with
  | some cv => [.deleteCanvas cv.id]
  | none => []

/-- Events of lines 88-95 when `c` was selected in state `s`. -/
def switchEvents (c : Controller) (s : State) : List Event :=
  if s._VGAController.map (·.id) ≠ some c.id then
    (match s._VGAController with
      | some old => [.end_ old.id, .deleteController old.id]
      | none => []) ++ [.begin c.id]
  else []

/-- A driver whose realized screen height equals its viewport height (600 rows). -/
def fabFit : FabGL :=
  { getScreenHeight := fun _ _ => 600
    getViewPortHeight := fun _ _ => 600 }

/-- A driver that realizes 900 rows while the viewport reports 1080. -/
def fabShort : FabGL :=
  { getScreenHeight := fun _ _ => 900
    getViewPortHeight := fun _ _ => 1080 }

/-- The state after `change_resolution(16, "800x600")` at program start. -/
def stateMode16 : State :=
  (change_resolution fabFit 16 (some "800x600") State.init).2

/-- Consistency of the globals with each other and with the trace. -/
structure Inv (s : State) : Prop where
  noController : s._VGAController = none → s.canvas = none ∧ s._VGAColourDepth = 255
  active : ∀ c, s._VGAController = some c →
    Supported s._VGAColourDepth ∧ c.cls.colours = s._VGAColourDepth ∧
    Event.construct c ∈ s.trace ∧ Started c.id s.trace ∧
    ∃ cv, s.canvas = some cv ∧ cv.displayController = c.id
  fresh : ∀ c, s._VGAController = some c → c.id < s.nextId
  ended : ∀ id, Event.end_ id ∈ s.trace → id < s.nextId
  live : liveCanvases s.trace = s.canvas.toList

/-! ## Lemmas on the operations -/

theorem change_resolution_eq (fab : FabGL) (colours : Nat) (modeLine : Option String)
    (s : State) :
    change_resolution fab colours modeLine s =
      match getVGAController colours s with
      | (none, s1) => (1, s1)
      | (some c, s1) =>
        (if fab.getScreenHeight c (modeApplied c colours modeLine s1).trace ≠
            fab.getViewPortHeight c (modeApplied c colours modeLine s1).trace then 2 else 0,
          modeApplied c colours modeLine s1) := by
  unfold change_resolution modeApplied
  split <;> simp
  split <;> simp_all

/-- The three ways `getVGAController` can go. -/
theorem getVGAController_cases (colours : Nat) (s : State) :
    (∃ c, s._VGAController = some c ∧ colours = s._VGAColourDepth ∧
      getVGAController colours s = (some c, s)) ∨
    (¬ (s._VGAController.isSome ∧ colours = s._VGAColourDepth) ∧ Supported colours ∧
      ∃ cls : ControllerClass, cls.colours = colours ∧
        getVGAController colours s = make_shared_controller cls s) ∨
    (¬ (s._VGAController.isSome ∧ colours = s._VGAColourDepth) ∧ ¬ Supported colours ∧
      getVGAController colours s = (none, s)) := by
  unfold getVGAController
  by_cases h : s._VGAController.isSome ∧ colours = s._VGAColourDepth
  · left
    obtain ⟨h1, h2⟩ := h
    obtain ⟨c, hc⟩ := Option.isSome_iff_exists.mp h1
    exact ⟨c, hc, h2, by simp [hc, h2]⟩
  · right
    have h' : (s._VGAController.isSome && colours == s._VGAColourDepth) = false := by
      simpa using h
    rw [h']
    simp only [Bool.false_eq_true, if_false]
    by_cases hs : Supported colours
    · left
      refine ⟨h, hs, ?_⟩
      rcases hs with h2 | h2 | h2 | h2 | h2 <;> subst h2
      · exact ⟨.VGA2Controller, rfl, rfl⟩
      · exact ⟨.VGA4Controller, rfl, rfl⟩
      · exact ⟨.VGA8Controller, rfl, rfl⟩
      · exact ⟨.VGA16Controller, rfl, rfl⟩
      · exact ⟨.VGAController, rfl, rfl⟩
    · right
      refine ⟨h, hs, ?_⟩
      unfold Supported at hs
      split <;> simp_all

theorem liveCanvases_snoc (tr : List Event) (e : Event) :
    liveCanvases (tr ++ [e]) = canvasStep (liveCanvases tr) e := by
  simp [liveCanvases, List.foldl_append]

theorem liveCanvases_append (tr ev : List Event) :
    liveCanvases (tr ++ ev) = ev.foldl canvasStep (liveCanvases tr) := by
  simp [liveCanvases, List.foldl_append]

/-- Closed form of lines 85-114. -/
theorem modeApplied_eq (c : Controller) (colours : Nat) (modeLine : Option String)
    (s : State) :
    modeApplied c colours modeLine s =
      { canvas := some ⟨s.nextId, c.id⟩
        _VGAController :=
          if s._VGAController.map (·.id) ≠ some c.id then some c else s._VGAController
        _VGAColourDepth := colours
        doubleBuffered := s.doubleBuffered
        nextId := s.nextId + 1
        trace := s.trace ++ (canvasResetEvents s ++ (switchEvents c s ++
          [modeLineEvent c modeLine s.doubleBuffered,
            .enableBackgroundPrimitiveExecution c.id true,
            .enableBackgroundPrimitiveTimeout c.id false,
            .newCanvas ⟨s.nextId, c.id⟩,
            .debug_log .afterChangeOfCanvas,
            .debug_log .freeMemory])) } := by
  rcases s with ⟨cv, vc, d, db, n, tr⟩
  cases cv <;> cases vc <;> cases modeLine <;> cases db <;>
    simp [modeApplied, canvas_reset, switchController, applyModeLine, make_shared_canvas,
      VGAController_reset, emit, modeLineEvent, canvasResetEvents, switchEvents] <;>
    split <;> simp_all

theorem Inv_init : Inv State.init := by
  constructor <;> simp [State.init, liveCanvases, uint8_t]

/-- An event that is neither `end()` nor a canvas construction or deletion keeps the
invariant. -/
theorem Inv_emit {s : State} (h : Inv s) (e : Event) (he : ∀ id, e ≠ .end_ id)
    (hcv : ∀ l, canvasStep l e = l) : Inv (emit e s) := by
  constructor
  · exact h.noController
  · intro c hc
    obtain ⟨h1, h2, h3, ⟨h4, h5⟩, h6⟩ := h.active c hc
    refine ⟨h1, h2, ?_, ⟨?_, ?_⟩, h6⟩
    · simp [emit, h3]
    · simp [emit, h4]
    · simp only [emit, List.mem_append, List.mem_singleton, not_or]
      exact ⟨h5, fun hh => he _ hh.symm⟩
  · exact h.fresh
  · intro id hid
    simp only [emit, List.mem_append, List.mem_singleton] at hid
    rcases hid with hid | hid
    · exact h.ended id hid
    · exact absurd hid.symm (he id)
  · simp only [emit, liveCanvases_snoc, hcv]
    exact h.live

/-- Re-selecting the active controller (same depth) keeps the invariant. -/
theorem Inv_modeApplied_same {s : State} (h : Inv s) (c : Controller)
    (hc : s._VGAController = some c) (modeLine : Option String) :
    Inv (modeApplied c s._VGAColourDepth modeLine s) := by
  obtain ⟨hsup, hcls, hcon, ⟨hb, he⟩, cv, hcv, hbind⟩ := h.active c hc
  have hf := h.fresh c hc
  have hl := h.live
  have hend := h.ended
  rw [hcv] at hl
  rw [modeApplied_eq]
  constructor
  · simp [hc]
  · intro c1 hc1
    simp only [hc, Option.map_some', ne_eq, not_true_eq_false, if_false] at hc1
    cases hc1
    refine ⟨hsup, hcls, ?_, ⟨?_, ?_⟩, ?_⟩
    · simp [hcon]
    · simp [hb]
    · cases modeLine <;> cases hdb : s.doubleBuffered <;>
        simp [he, canvasResetEvents, switchEvents, hc, hcv, modeLineEvent, hdb]
    · simp
  · intro c1 hc1
    simp only [hc, Option.map_some', ne_eq, not_true_eq_false, if_false] at hc1
    cases hc1
    simp only
    omega
  · intro id hid
    have : Event.end_ id ∈ s.trace := by
      cases modeLine <;> cases hdb : s.doubleBuffered <;>
        simpa [canvasResetEvents, switchEvents, hc, hcv, modeLineEvent, hdb] using hid
    have := hend id this
    simp only
    omega
  · cases modeLine <;> cases hdb : s.doubleBuffered <;>
      simp [liveCanvases_append, canvasResetEvents, switchEvents, hc, hcv, modeLineEvent,
        canvasStep, hl, hdb]

theorem supported_colours (cls : ControllerClass) : Supported cls.colours := by
  cases cls <;> simp [Supported, ControllerClass.colours]

/-- Selecting a newly constructed controller keeps the invariant. -/
theorem Inv_modeApplied_new {s : State} (h : Inv s) (cls : ControllerClass)
    (modeLine : Option String) :
    Inv (modeApplied ⟨s.nextId, cls⟩ cls.colours modeLine
      (make_shared_controller cls s).2) := by
  have hend := h.ended
  have hl := h.live
  rw [modeApplied_eq]
  cases hvc : s._VGAController with
  | none =>
    obtain ⟨hcv, -⟩ := h.noController hvc
    rw [hcv] at hl
    have hne : Event.end_ s.nextId ∉ s.trace := fun hh => by
      have := hend _ hh
      omega
    constructor
    · simp [make_shared_controller, hvc]
    · intro c1 hc1
      simp only [make_shared_controller, hvc, Option.map_none', ne_eq, reduceCtorEq,
        not_false_eq_true, if_true, Option.some.injEq] at hc1
      subst hc1
      refine ⟨supported_colours cls, rfl, ?_, ⟨?_, ?_⟩, ?_⟩
      · simp [make_shared_controller]
      · simp [make_shared_controller, switchEvents, hvc]
      · cases modeLine <;> cases hdb : s.doubleBuffered <;>
          simp [make_shared_controller, hne, canvasResetEvents, switchEvents, hvc, hcv,
            modeLineEvent, hdb]
      · simp
    · intro c1 hc1
      simp only [make_shared_controller, hvc, Option.map_none', ne_eq, reduceCtorEq,
        not_false_eq_true, if_true, Option.some.injEq] at hc1
      subst hc1
      simp only [make_shared_controller]
      omega
    · intro id hid
      have : Event.end_ id ∈ s.trace := by
        cases modeLine <;> cases hdb : s.doubleBuffered <;>
          simpa [make_shared_controller, canvasResetEvents, switchEvents, hvc, hcv,
            modeLineEvent, hdb] using hid
      have := hend id this
      simp only [make_shared_controller]
      omega
    · cases modeLine <;> cases hdb : s.doubleBuffered <;>
        simp [make_shared_controller, liveCanvases_append, canvasResetEvents, switchEvents,
          hvc, hcv, modeLineEvent, canvasStep, hl, liveCanvases_snoc, hdb]
  | some old =>
    obtain ⟨-, -, -, ⟨-, hoe⟩, cv, hcv, -⟩ := h.active old hvc
    have hf := h.fresh old hvc
    rw [hcv] at hl
    have hne : Event.end_ s.nextId ∉ s.trace := fun hh => by
      have := hend _ hh
      omega
    have hid : ¬ old.id = s.nextId := by omega
    have hid2 : ¬ s.nextId = old.id := by omega
    constructor
    · simp [make_shared_controller, hvc, hid]
    · intro c1 hc1
      simp only [make_shared_controller, hvc, Option.map_some', ne_eq, Option.some.injEq,
        hid, not_false_eq_true, if_true] at hc1
      subst hc1
      refine ⟨supported_colours cls, rfl, ?_, ⟨?_, ?_⟩, ?_⟩
      · simp [make_shared_controller]
      · simp [make_shared_controller, switchEvents, hvc, hid]
      · cases modeLine <;> cases hdb : s.doubleBuffered <;>
          simp [make_shared_controller, hne, canvasResetEvents, switchEvents, hvc, hcv,
            modeLineEvent, hid, hid2, hdb]
      · simp
    · intro c1 hc1
      simp only [make_shared_controller, hvc, Option.map_some', ne_eq, Option.some.injEq,
        hid, not_false_eq_true, if_true] at hc1
      subst hc1
      simp only [make_shared_controller]
      omega
    · intro id hid'
      have : Event.end_ id ∈ s.trace ∨ id = old.id := by
        cases modeLine <;> cases hdb : s.doubleBuffered <;>
          simpa [make_shared_controller, canvasResetEvents, switchEvents, hvc, hcv,
            modeLineEvent, hdb, hid] using hid'
      simp only [make_shared_controller]
      rcases this with this | this
      · have := hend id this
        omega
      · omega
    · cases modeLine <;> cases hdb : s.doubleBuffered <;>
        simp [make_shared_controller, liveCanvases_append, canvasResetEvents, switchEvents,
          hvc, hcv, modeLineEvent, canvasStep, hl, liveCanvases_snoc, hid, hdb]

/-- With the invariant, an unsupported depth is never the recorded depth of an active
controller, so `getVGAController` returns null and touches nothing. -/
theorem getVGAController_unsupported {s : State} (h : Inv s) {colours : Nat}
    (hu : ¬ Supported colours) : getVGAController colours s = (none, s) := by
  rcases getVGAController_cases colours s with ⟨c, hc, hd, -⟩ | ⟨-, hs, -⟩ | ⟨-, -, hg⟩
  · exact absurd (hd ▸ (h.active c hc).1) hu
  · exact absurd hs hu
  · exact hg

theorem Inv_change_resolution {s : State} (h : Inv s) (fab : FabGL) (colours : Nat)
    (modeLine : Option String) : Inv (change_resolution fab colours modeLine s).2 := by
  rw [change_resolution_eq]
  rcases getVGAController_cases colours s with ⟨c, hc, hd, hg⟩ | ⟨-, -, cls, hcls, hg⟩ | ⟨-, -, hg⟩
  · rw [hg, hd]
    exact Inv_modeApplied_same h c hc modeLine
  · rw [hg, ← hcls]
    exact Inv_modeApplied_new h cls modeLine
  · rw [hg]
    exact h

theorem Inv_setPaletteItem {s : State} (h : Inv s) (l : Nat) (c : RGB888) :
    Inv (setPaletteItem l c s) := by
  unfold setPaletteItem
  dsimp only
  split
  · split
    all_goals first
      | exact h
      | exact Inv_emit h _ (fun _ => by simp) (fun _ => rfl)
  · exact h

theorem Inv_switchBuffer {s t : State} (h : Inv s) (ht : switchBuffer s = .ok t) : Inv t := by
  unfold switchBuffer at ht
  split at ht
  · split at ht
    · cases ht
      exact Inv_emit h _ (fun _ => by simp) (fun _ => rfl)
    · cases ht
  · cases ht
    exact h

theorem Inv_waitPlotCompletion {s t : State} (h : Inv s) (w : Bool)
    (ht : waitPlotCompletion w s = .ok t) : Inv t := by
  unfold waitPlotCompletion at ht
  split at ht
  · cases ht
    exact Inv_emit h _ (fun _ => by simp) (fun _ => rfl)
  · cases ht

theorem Inv_doubleBuffered {s : State} (h : Inv s) (b : Bool) :
    Inv { s with doubleBuffered := b } :=
  ⟨h.noController, h.active, h.fresh, h.ended, h.live⟩

/-- Every reachable state satisfies the invariant. -/
theorem Reachable.inv {s : State} (h : Reachable s) : Inv s := by
  induction h with
  | init => exact Inv_init
  | change_resolution fab colours modeLine s _ ih => exact Inv_change_resolution ih _ _ _
  | setPaletteItem l c s _ ih => exact Inv_setPaletteItem ih l c
  | switchBuffer s t _ ht ih => exact Inv_switchBuffer ih ht
  | waitPlotCompletion w s t _ ht ih => exact Inv_waitPlotCompletion ih w ht
  | doubleBuffered b s _ ih => exact Inv_doubleBuffered ih b

theorem newEvents_of_trace {s t : State} {ev : List Event}
    (h : t.trace = s.trace ++ ev) : newEvents s t = ev := by
  simp [newEvents, h]

/-- The two ways `getVGAController` returns a controller: the active one, state
untouched, or a new object at the next free address. -/
theorem select_cases {colours : Nat} {s s1 : State} {c : Controller}
    (hg : getVGAController colours s = (some c, s1)) :
    (s._VGAController = some c ∧ colours = s._VGAColourDepth ∧ s1 = s) ∨
    (¬ (s._VGAController.isSome ∧ colours = s._VGAColourDepth) ∧ c.id = s.nextId ∧
      c.cls.colours = colours ∧ Supported colours ∧
      s1 = (make_shared_controller c.cls s).2) := by
  rcases getVGAController_cases colours s with ⟨c1, hc1, hd, hg1⟩ | ⟨hn, hs, cls, hcls, hg1⟩ |
    ⟨-, -, hg1⟩
  · have := Prod.mk.inj (hg1.symm.trans hg)
    obtain ⟨h1, h2⟩ := this
    have h3 := Option.some.inj h1
    subst h3 h2
    exact Or.inl ⟨hc1, hd, rfl⟩
  · have := Prod.mk.inj (hg1.symm.trans hg)
    obtain ⟨h1, h2⟩ := this
    have h3 : (⟨s.nextId, cls⟩ : Controller) = c := Option.some.inj h1
    subst h3
    exact Or.inr ⟨hn, rfl, hcls, hs, h2.symm⟩
  · have := Prod.mk.inj (hg1.symm.trans hg)
    exact absurd this.1 (by simp)

/-- The events `getVGAController` adds: none, or one construction. -/
theorem select_trace {colours : Nat} {s s1 : State} {c : Controller}
    (hg : getVGAController colours s = (some c, s1)) :
    s1.trace = s.trace ++ newEvents s s1 ∧
      (newEvents s s1 = [] ∨ newEvents s s1 = [Event.construct c]) ∧
      s1.doubleBuffered = s.doubleBuffered ∧ s1.canvas = s.canvas ∧
      s1._VGAController = s._VGAController := by
  rcases select_cases hg with ⟨-, -, rfl⟩ | ⟨-, hid, -, -, rfl⟩
  · simp [newEvents]
  · have ht : (make_shared_controller c.cls s).2.trace = s.trace ++ [Event.construct c] := by
      simp [make_shared_controller, ← hid]
    rw [newEvents_of_trace ht]
    exact ⟨ht, Or.inr rfl, rfl, rfl, rfl⟩

/-- The part of the trace `modeApplied` adds. -/
theorem newEvents_modeApplied (c : Controller) (colours : Nat) (modeLine : Option String)
    (s : State) :
    newEvents s (modeApplied c colours modeLine s) =
      canvasResetEvents s ++ (switchEvents c s ++
        [modeLineEvent c modeLine s.doubleBuffered,
          .enableBackgroundPrimitiveExecution c.id true,
          .enableBackgroundPrimitiveTimeout c.id false,
          .newCanvas ⟨s.nextId, c.id⟩,
          .debug_log .afterChangeOfCanvas,
          .debug_log .freeMemory]) := by
  apply newEvents_of_trace
  rw [modeApplied_eq]

/-- The events of a whole `change_resolution` call that selected `c`. -/
theorem newEvents_select_modeApplied {colours : Nat} {s s1 : State} {c : Controller}
    (hg : getVGAController colours s = (some c, s1)) (modeLine : Option String) :
    newEvents s (modeApplied c colours modeLine s1) =
      newEvents s s1 ++ (canvasResetEvents s1 ++ (switchEvents c s1 ++
        [modeLineEvent c modeLine s.doubleBuffered,
          .enableBackgroundPrimitiveExecution c.id true,
          .enableBackgroundPrimitiveTimeout c.id false,
          .newCanvas ⟨s1.nextId, c.id⟩,
          .debug_log .afterChangeOfCanvas,
          .debug_log .freeMemory])) := by
  obtain ⟨ht, -, hdb, -, -⟩ := select_trace hg
  apply newEvents_of_trace
  rw [modeApplied_eq]
  simp only [hdb]
  conv_lhs => rw [ht]
  simp

/-- A supported depth always yields a controller. -/
theorem getVGAController_supported (s : State) {colours : Nat} (hs : Supported colours) :
    ∃ c s1, getVGAController colours s = (some c, s1) := by
  rcases getVGAController_cases colours s with ⟨c, -, -, hg⟩ | ⟨-, -, cls, -, hg⟩ | ⟨-, hu, -⟩
  · exact ⟨c, s, hg⟩
  · exact ⟨⟨s.nextId, cls⟩, _, hg⟩
  · exact absurd hs hu

/-- Unfolding of `change_resolution` once the selected controller is known. -/
theorem change_resolution_of_some (fab : FabGL) {colours : Nat} (modeLine : Option String)
    {s s1 : State} {c : Controller} (hg : getVGAController colours s = (some c, s1)) :
    change_resolution fab colours modeLine s =
      (if fab.getScreenHeight c (modeApplied c colours modeLine s1).trace ≠
          fab.getViewPortHeight c (modeApplied c colours modeLine s1).trace then 2 else 0,
        modeApplied c colours modeLine s1) := by
  rw [change_resolution_eq, hg]

theorem modeLineEvent_some (c : Controller) (m : String) (db : Bool) :
    ∃ args, modeLineEvent c (some m) db = .setResolution c.id m args := by
  cases db
  · exact ⟨[], rfl⟩
  · exact ⟨[-1, -1, 1], rfl⟩

/-! ## Rejection of unsupported depths and the return value -/

/-- C1: in every reachable state, for every colours value outside {2,4,8,16,64}
(255 included) and every mode line, `change_resolution` returns 1 and leaves the
whole state as it was: active controller, recorded depth, canvas and buffering flag
are unchanged and no event is added to the trace, so no call reaches any driver. -/
theorem change_resolution_unsupported (s : State) (h : Reachable s) (fab : FabGL)
    (colours : Nat) (hu : ¬ Supported colours) (modeLine : Option String) :
    change_resolution fab colours modeLine s = (1, s) ∧
      newEvents s (change_resolution fab colours modeLine s).2 = [] := by
  have hg := getVGAController_unsupported h.inv hu
  have h1 : change_resolution fab colours modeLine s = (1, s) := by
    rw [change_resolution_eq, hg]
  refine ⟨h1, ?_⟩
  rw [h1]
  simp [newEvents]

/-- Instance of C1: colours 255 while the 16-colour mode is active. -/
theorem change_resolution_unsupported_witness :
    Reachable stateMode16 ∧ ¬ Supported 255 ∧
      (change_resolution fabShort 255 (some "800x600") stateMode16 = (1, stateMode16) ∧
        newEvents stateMode16
          (change_resolution fabShort 255 (some "800x600") stateMode16).2 = []) :=
  ⟨Reachable.change_resolution _ _ _ _ Reachable.init, by decide,
    change_resolution_unsupported stateMode16
      (Reachable.change_resolution _ _ _ _ Reachable.init) fabShort 255 (by decide)
      (some "800x600")⟩

/-- C2: for every state, every supported depth and every mode line (null or not),
`change_resolution` returns 2 exactly when the selected controller's screen height
differs from its viewport height, both read on the trace that already holds the
`setResolution` call, and 0 exactly when they agree; it does not return 1, and for
no colours value at all does it return anything but 0, 1 or 2. -/
theorem change_resolution_result (fab : FabGL) (s : State) (colours : Nat)
    (hs : Supported colours) (modeLine : Option String) :
    ∃ c, (getVGAController colours s).1 = some c ∧
      (∀ m, modeLine = some m → ∃ args, Event.setResolution c.id m args ∈
        newEvents s (change_resolution fab colours modeLine s).2) ∧
      ((change_resolution fab colours modeLine s).1 = 2 ↔
        fab.getScreenHeight c (change_resolution fab colours modeLine s).2.trace ≠
          fab.getViewPortHeight c (change_resolution fab colours modeLine s).2.trace) ∧
      ((change_resolution fab colours modeLine s).1 = 0 ↔
        fab.getScreenHeight c (change_resolution fab colours modeLine s).2.trace =
          fab.getViewPortHeight c (change_resolution fab colours modeLine s).2.trace) ∧
      (change_resolution fab colours modeLine s).1 ≠ 1 ∧
      ∀ colours1, (change_resolution fab colours1 modeLine s).1 = 0 ∨
        (change_resolution fab colours1 modeLine s).1 = 1 ∨
        (change_resolution fab colours1 modeLine s).1 = 2 := by
  obtain ⟨c, s1, hg⟩ := getVGAController_supported s hs
  refine ⟨c, by rw [hg], ?_, ?_, ?_, ?_, ?_⟩
  · intro m hm
    subst hm
    rw [change_resolution_of_some fab _ hg, newEvents_select_modeApplied hg]
    obtain ⟨args, ha⟩ := modeLineEvent_some c m s.doubleBuffered
    exact ⟨args, by simp [ha]⟩
  · rw [change_resolution_of_some fab _ hg]
    by_cases hh : fab.getScreenHeight c (modeApplied c colours modeLine s1).trace =
        fab.getViewPortHeight c (modeApplied c colours modeLine s1).trace <;> simp [hh]
  · rw [change_resolution_of_some fab _ hg]
    by_cases hh : fab.getScreenHeight c (modeApplied c colours modeLine s1).trace =
        fab.getViewPortHeight c (modeApplied c colours modeLine s1).trace <;> simp [hh]
  · rw [change_resolution_of_some fab _ hg]
    by_cases hh : fab.getScreenHeight c (modeApplied c colours modeLine s1).trace =
        fab.getViewPortHeight c (modeApplied c colours modeLine s1).trace <;> simp [hh]
  · intro colours1
    rw [change_resolution_eq]
    rcases getVGAController_cases colours1 s with ⟨c1, -, -, hg1⟩ | ⟨-, -, cls, -, hg1⟩ |
      ⟨-, -, hg1⟩
    · rw [hg1]
      by_cases hh : fab.getScreenHeight c1 (modeApplied c1 colours1 modeLine s).trace =
        fab.getViewPortHeight c1 (modeApplied c1 colours1 modeLine s).trace <;> simp [hh]
    · rw [hg1]
      simp only [make_shared_controller]
      split <;> simp
    · rw [hg1]
      simp

/-- Instance of C2: depth 8 at program start, with a driver that realizes fewer rows
and with one that fits. -/
theorem change_resolution_result_witness :
    Supported 8 ∧ (change_resolution fabShort 8 (some "1920x1080") State.init).1 = 2 ∧
      (change_resolution fabFit 8 (some "1920x1080") State.init).1 = 0 := by
  refine ⟨by decide, ?_, ?_⟩
  · obtain ⟨c, -, -, h2, -⟩ :=
      change_resolution_result fabShort State.init 8 (by decide) (some "1920x1080")
    exact h2.mpr (by simp [fabShort])
  · obtain ⟨c, -, -, -, h0, -⟩ :=
      change_resolution_result fabFit State.init 8 (by decide) (some "1920x1080")
    exact h0.mpr (by simp [fabFit])

/-! ## The insufficient-memory return -/

/-- The state `change_resolution` leaves does not depend on the driver's answers. -/
theorem change_resolution_state_indep (fab fab1 : FabGL) (colours : Nat)
    (modeLine : Option String) (s : State) :
    (change_resolution fab1 colours modeLine s).2 =
      (change_resolution fab colours modeLine s).2 := by
  rw [change_resolution_eq, change_resolution_eq]
  rcases getVGAController_cases colours s with ⟨c, -, -, hg⟩ | ⟨-, -, cls, -, hg⟩ | ⟨-, -, hg⟩
  · rw [hg]
  · rw [hg]
    rfl
  · rw [hg]

/-- A return value other than 1 means a controller was selected. -/
theorem getVGAController_of_result_ne_one (fab : FabGL) (colours : Nat)
    (modeLine : Option String) (s : State)
    (h : (change_resolution fab colours modeLine s).1 ≠ 1) :
    ∃ c s1, getVGAController colours s = (some c, s1) := by
  rcases getVGAController_cases colours s with ⟨c, -, -, hg⟩ | ⟨-, -, cls, -, hg⟩ | ⟨-, -, hg⟩
  · exact ⟨_, _, hg⟩
  · exact ⟨_, _, hg⟩
  · rw [change_resolution_eq, hg] at h
    exact absurd rfl h

/-- In a state with the invariant, the controller a call selected differs from the
active one only when it is a new object. -/
theorem switch_iff_new {s s1 : State} (h : Inv s) {colours : Nat} {c : Controller}
    (hg : getVGAController colours s = (some c, s1)) :
    (s1._VGAController.map (·.id) ≠ some c.id) ↔ s._VGAController ≠ some c := by
  rcases select_cases hg with ⟨hc, -, rfl⟩ | ⟨-, hid, -, -, rfl⟩
  · simp [hc]
  · cases hvc : s._VGAController with
    | none => simp [make_shared_controller, hvc]
    | some old =>
      have := h.fresh old hvc
      have hid1 : ¬ old.id = c.id := by omega
      have hne : ¬ old = c := fun hh => hid1 (by rw [hh])
      simp [make_shared_controller, hvc, hid1, hne]

/-- In a state with the invariant, after `change_resolution` selected `c` the active
controller is `c`. -/
theorem active_after_change_resolution {s : State} (h : Inv s) (fab : FabGL) {colours : Nat}
    (modeLine : Option String) {c : Controller} {s1 : State}
    (hg : getVGAController colours s = (some c, s1)) :
    (change_resolution fab colours modeLine s).2._VGAController = some c := by
  rw [change_resolution_of_some fab _ hg, modeApplied_eq]
  by_cases hsw : s1._VGAController.map (·.id) ≠ some c.id
  · rw [if_pos hsw]
  · rw [if_neg hsw]
    have := (not_iff_not.mpr (switch_iff_new h hg)).mp hsw
    rw [(select_trace hg).2.2.2.2]
    simpa using this

/-- C3: when `change_resolution` returns 2 in a reachable state, the mode is applied
all the same.  The state left is the one every other driver answer leaves, a 0 return
included; the recorded depth is the requested colours; the selected controller is the
active one and is started; a canvas constructed during this call and bound to that
controller is the one canvas that exists; and `switchBuffer` with double buffering
on swaps that canvas and does not fault. -/
theorem change_resolution_insufficient_memory (s : State) (h : Reachable s) (fab : FabGL)
    (colours : Nat) (modeLine : Option String)
    (h2 : (change_resolution fab colours modeLine s).1 = 2) :
    (∀ fab1, (change_resolution fab1 colours modeLine s).2 =
      (change_resolution fab colours modeLine s).2) ∧
    change_resolution fabFit colours modeLine s =
      (0, (change_resolution fab colours modeLine s).2) ∧
    (change_resolution fab colours modeLine s).2._VGAColourDepth = colours ∧
    ∃ c cv, (getVGAController colours s).1 = some c ∧
      (change_resolution fab colours modeLine s).2._VGAController = some c ∧
      Started c.id (change_resolution fab colours modeLine s).2.trace ∧
      (change_resolution fab colours modeLine s).2.canvas = some cv ∧
      cv.displayController = c.id ∧
      Event.newCanvas cv ∈ newEvents s (change_resolution fab colours modeLine s).2 ∧
      liveCanvases (change_resolution fab colours modeLine s).2.trace = [cv] ∧
      switchBuffer { (change_resolution fab colours modeLine s).2 with doubleBuffered := true } =
        .ok (emit (.swapBuffers cv.id)
          { (change_resolution fab colours modeLine s).2 with doubleBuffered := true }) := by
  have hne : (change_resolution fab colours modeLine s).1 ≠ 1 := by rw [h2]; decide
  obtain ⟨c, s1, hg⟩ := getVGAController_of_result_ne_one fab colours modeLine s hne
  have hinv := Inv_change_resolution h.inv fab colours modeLine
  have hact := active_after_change_resolution h.inv fab modeLine hg
  obtain ⟨-, -, -, hst, cv, hcv, hbind⟩ := hinv.active c hact
  have hlive := hinv.live
  rw [hcv] at hlive
  refine ⟨fun fab1 => change_resolution_state_indep fab fab1 colours modeLine s, ?_, ?_,
    c, cv, by rw [hg], hact, hst, hcv, hbind, ?_, hlive, ?_⟩
  · rw [change_resolution_of_some fab _ hg, change_resolution_of_some fabFit _ hg]
    simp [fabFit]
  · rw [change_resolution_of_some fab _ hg, modeApplied_eq]
  · rw [change_resolution_of_some fab _ hg] at hcv ⊢
    rw [modeApplied_eq] at hcv
    simp only [Option.some.injEq] at hcv
    subst hcv
    rw [newEvents_select_modeApplied hg]
    simp
  · simp [switchBuffer, hcv]

/-- Instance of C3: depth 8 at program start on a driver that realizes 900 of 1080 rows. -/
theorem change_resolution_insufficient_memory_witness :
    Reachable State.init ∧ (change_resolution fabShort 8 (some "1920x1080") State.init).1 = 2 ∧
      (change_resolution fabShort 8 (some "1920x1080") State.init).2._VGAColourDepth = 8 :=
  ⟨Reachable.init, by decide,
    (change_resolution_insufficient_memory State.init Reachable.init fabShort 8
      (some "1920x1080") (by decide)).2.2.1⟩

/-! ## Repeating a mode change, and changing depth -/

theorem getVGAController_active {s : State} {c : Controller}
    (hc : s._VGAController = some c) :
    getVGAController s._VGAColourDepth s = (some c, s) := by
  simp [getVGAController, hc]

/-- After a call that selected a controller, some controller with the selected
address is active, whatever the state before. -/
theorem active_after_modeApplied (c : Controller) (colours : Nat) (modeLine : Option String)
    (s : State) :
    ∃ a, (modeApplied c colours modeLine s)._VGAController = some a ∧ a.id = c.id := by
  rw [modeApplied_eq]
  by_cases hsw : s._VGAController.map (·.id) ≠ some c.id
  · exact ⟨c, by rw [if_pos hsw], rfl⟩
  · rw [if_neg hsw]
    cases hvc : s._VGAController with
    | none => simp [hvc] at hsw
    | some a =>
      refine ⟨a, rfl, ?_⟩
      simpa [hvc] using hsw

theorem modeLineEvent_target (c : Controller) (modeLine : Option String) (db : Bool) :
    (modeLineEvent c modeLine db).target = some c.id ∨
      (modeLineEvent c modeLine db).target = none := by
  cases modeLine <;> cases db <;> simp [modeLineEvent, Event.target]

theorem modeLineEvent_not_lifecycle (c : Controller) (modeLine : Option String) (db : Bool) :
    (∀ id, modeLineEvent c modeLine db ≠ .begin id) ∧
    (∀ id, modeLineEvent c modeLine db ≠ .end_ id) ∧
    (∀ id, modeLineEvent c modeLine db ≠ .deleteController id) ∧
    (∀ a, modeLineEvent c modeLine db ≠ .construct a) := by
  cases modeLine <;> cases db <;> simp [modeLineEvent]

/-- C4: for every supported depth `d` and mode line `m`, a second
`change_resolution(d, m)` right after a first one finds the active controller
selected by `getVGAController` (same object, state untouched, nothing constructed),
keeps the active controller and the recorded depth of the first call, and its whole
trace is: delete the canvas, apply the mode line, the two enable calls, construct a
canvas on the same controller, two log calls.  No `begin`, no `end`, no controller
construction or deletion occurs in it. -/
theorem change_resolution_twice (fab : FabGL) (s : State) (d : Nat) (hd : Supported d)
    (m : Option String) :
    ∃ t1 t2 c cv, t1 = (change_resolution fab d m s).2 ∧
      t2 = (change_resolution fab d m t1).2 ∧
      t1._VGAController = some c ∧ t1._VGAColourDepth = d ∧ t1.canvas = some cv ∧
      getVGAController d t1 = (some c, t1) ∧
      t2._VGAController = some c ∧ t2._VGAColourDepth = d ∧
      t2.doubleBuffered = t1.doubleBuffered ∧
      t2.canvas = some ⟨t1.nextId, c.id⟩ ∧
      newEvents t1 t2 =
        [.deleteCanvas cv.id, modeLineEvent c m t1.doubleBuffered,
          .enableBackgroundPrimitiveExecution c.id true,
          .enableBackgroundPrimitiveTimeout c.id false,
          .newCanvas ⟨t1.nextId, c.id⟩,
          .debug_log .afterChangeOfCanvas, .debug_log .freeMemory] ∧
      ∀ e ∈ newEvents t1 t2, (∀ id, e ≠ .begin id) ∧ (∀ id, e ≠ .end_ id) ∧
        (∀ id, e ≠ .deleteController id) ∧ (∀ a, e ≠ .construct a) := by
  obtain ⟨c0, s1, hg⟩ := getVGAController_supported s hd
  obtain ⟨c, hc, -⟩ := active_after_modeApplied c0 d m s1
  have ht1 : (change_resolution fab d m s).2 = modeApplied c0 d m s1 := by
    rw [change_resolution_of_some fab _ hg]
  have hdepth : (modeApplied c0 d m s1)._VGAColourDepth = d := by rw [modeApplied_eq]
  have hcv : (modeApplied c0 d m s1).canvas = some ⟨s1.nextId, c0.id⟩ := by
    rw [modeApplied_eq]
  have hg2 : getVGAController d (modeApplied c0 d m s1) = (some c, modeApplied c0 d m s1) := by
    have := getVGAController_active hc
    rwa [hdepth] at this
  have ht2 : (change_resolution fab d m (modeApplied c0 d m s1)).2 =
      modeApplied c d m (modeApplied c0 d m s1) := by
    rw [change_resolution_of_some fab _ hg2]
  have hev : newEvents (modeApplied c0 d m s1) (modeApplied c d m (modeApplied c0 d m s1)) =
      [.deleteCanvas s1.nextId, modeLineEvent c m (modeApplied c0 d m s1).doubleBuffered,
        .enableBackgroundPrimitiveExecution c.id true,
        .enableBackgroundPrimitiveTimeout c.id false,
        .newCanvas ⟨(modeApplied c0 d m s1).nextId, c.id⟩,
        .debug_log .afterChangeOfCanvas, .debug_log .freeMemory] := by
    rw [newEvents_modeApplied]
    simp [canvasResetEvents, switchEvents, hc, hcv]
  refine ⟨_, _, c, ⟨s1.nextId, c0.id⟩, rfl, rfl, ?_, ?_, ?_, ?_, ?_, ?_, ?_, ?_, ?_, ?_⟩
  · rw [ht1]; exact hc
  · rw [ht1]; exact hdepth
  · rw [ht1]; exact hcv
  · rw [ht1]; exact hg2
  · rw [ht1, ht2, modeApplied_eq]
    simp [hc]
  · rw [ht1, ht2, modeApplied_eq]
  · rw [ht1, ht2]
    conv_lhs => rw [modeApplied_eq]
  · rw [ht1, ht2]
    conv_lhs => rw [modeApplied_eq]
  · rw [ht1, ht2]
    exact hev
  · rw [ht1, ht2, hev]
    have hm := modeLineEvent_not_lifecycle c m (modeApplied c0 d m s1).doubleBuffered
    intro e he
    simp only [List.mem_cons, List.mem_singleton, List.not_mem_nil, or_false] at he
    rcases he with rfl | rfl | rfl | rfl | rfl | rfl | rfl
    · simp
    · exact hm
    · simp
    · simp
    · simp
    · simp
    · simp

/-- Instance of C4: depth 16 with mode line 800x600, twice from program start. -/
theorem change_resolution_twice_witness :
    Supported 16 ∧
      ∃ t1 t2 c cv, t1 = (change_resolution fabFit 16 (some "800x600") State.init).2 ∧
        t2 = (change_resolution fabFit 16 (some "800x600") t1).2 ∧
        t1._VGAController = some c ∧ t1._VGAColourDepth = 16 ∧ t1.canvas = some cv ∧
        getVGAController 16 t1 = (some c, t1) ∧
        t2._VGAController = some c ∧ t2._VGAColourDepth = 16 ∧
        t2.doubleBuffered = t1.doubleBuffered ∧
        t2.canvas = some ⟨t1.nextId, c.id⟩ ∧
        newEvents t1 t2 =
          [.deleteCanvas cv.id, modeLineEvent c (some "800x600") t1.doubleBuffered,
            .enableBackgroundPrimitiveExecution c.id true,
            .enableBackgroundPrimitiveTimeout c.id false,
            .newCanvas ⟨t1.nextId, c.id⟩,
            .debug_log .afterChangeOfCanvas, .debug_log .freeMemory] ∧
        ∀ e ∈ newEvents t1 t2, (∀ id, e ≠ .begin id) ∧ (∀ id, e ≠ .end_ id) ∧
          (∀ id, e ≠ .deleteController id) ∧ (∀ a, e ≠ .construct a) :=
  ⟨by decide, change_resolution_twice fabFit State.init 16 (by decide) (some "800x600")⟩

/-- C5: in a reachable state whose active controller `c1` was constructed for depth
d1, `change_resolution(d2, m)` with `d2` supported and different from d1 produces this
trace: construct `c2`, delete the old canvas, `end()` on `c1`, delete `c1`, `begin()`
on `c2`, the mode line, the two enable calls, construct the new canvas, two log calls.
So the old canvas is deleted before `end()` on `c1`, that `end()` precedes `begin()`
on `c2`, no driver method is called on `c1` after its `end()`, every `setResolution`
on `c2` comes after its `begin()`, and at return the one canvas that exists is bound
to `c2`, which is the active controller. -/
theorem change_resolution_switch (s : State) (h : Reachable s) (c1 : Controller)
    (hc1 : s._VGAController = some c1) (d2 : Nat) (hd2 : Supported d2)
    (hne : d2 ≠ c1.cls.colours) (fab : FabGL) (m : Option String) :
    ∃ t ev c2 cvOld cvNew, t = (change_resolution fab d2 m s).2 ∧ ev = newEvents s t ∧
      (getVGAController d2 s).1 = some c2 ∧ c2.cls.colours = d2 ∧ c2.id ≠ c1.id ∧
      s.canvas = some cvOld ∧
      ev = [.construct c2, .deleteCanvas cvOld.id, .end_ c1.id, .deleteController c1.id,
        .begin c2.id, modeLineEvent c2 m s.doubleBuffered,
        .enableBackgroundPrimitiveExecution c2.id true,
        .enableBackgroundPrimitiveTimeout c2.id false,
        .newCanvas cvNew, .debug_log .afterChangeOfCanvas, .debug_log .freeMemory] ∧
      Event.end_ c1.id ∈ eventsAfter (.deleteCanvas cvOld.id) ev ∧
      Event.begin c2.id ∈ eventsAfter (.end_ c1.id) ev ∧
      (∀ e ∈ eventsAfter (.end_ c1.id) ev, e.target ≠ some c1.id) ∧
      (∀ m1 args, Event.setResolution c2.id m1 args ∈ ev →
        Event.setResolution c2.id m1 args ∈ eventsAfter (.begin c2.id) ev) ∧
      (∀ m1, m = some m1 → ∃ args,
        Event.setResolution c2.id m1 args ∈ eventsAfter (.begin c2.id) ev) ∧
      t._VGAController = some c2 ∧ t._VGAColourDepth = d2 ∧ Started c2.id t.trace ∧
      t.canvas = some cvNew ∧ cvNew.displayController = c2.id ∧
      liveCanvases t.trace = [cvNew] := by
  have hinv := h.inv
  obtain ⟨-, hcls1, -, -, cvOld, hcvOld, -⟩ := hinv.active c1 hc1
  have hf := hinv.fresh c1 hc1
  obtain ⟨c2, s1, hg⟩ := getVGAController_supported s hd2
  have hinv2 := Inv_change_resolution hinv fab d2 m
  have hact := active_after_change_resolution hinv fab m hg
  obtain ⟨-, -, -, hst, cvNew, hcvNew, hbind⟩ := hinv2.active c2 hact
  have hlive := hinv2.live
  rw [hcvNew] at hlive
  have ht : (change_resolution fab d2 m s).2 = modeApplied c2 d2 m s1 := by
    rw [change_resolution_of_some fab _ hg]
  rcases select_cases hg with ⟨-, hd, -⟩ | ⟨-, hid, hcls2, -, hs1⟩
  · exact absurd (hd.trans hcls1.symm) hne
  have hidne : c2.id ≠ c1.id := by omega
  have hidne1 : ¬ c1.id = c2.id := fun hh => hidne hh.symm
  have hcvNew1 : cvNew = ⟨s1.nextId, c2.id⟩ := by
    rw [ht, modeApplied_eq] at hcvNew
    exact (Option.some.inj hcvNew).symm
  have hev : newEvents s (modeApplied c2 d2 m s1) =
      [.construct c2, .deleteCanvas cvOld.id, .end_ c1.id, .deleteController c1.id,
        .begin c2.id, modeLineEvent c2 m s.doubleBuffered,
        .enableBackgroundPrimitiveExecution c2.id true,
        .enableBackgroundPrimitiveTimeout c2.id false,
        .newCanvas cvNew, .debug_log .afterChangeOfCanvas, .debug_log .freeMemory] := by
    rw [newEvents_select_modeApplied hg, hcvNew1]
    have hn : newEvents s s1 = [Event.construct c2] := by
      apply newEvents_of_trace
      rw [hs1]
      simp [make_shared_controller, ← hid]
    rw [hn, hs1]
    simp [canvasResetEvents, switchEvents, make_shared_controller, hc1, hcvOld, hidne1]
  have hdepth : (modeApplied c2 d2 m s1)._VGAColourDepth = d2 := by rw [modeApplied_eq]
  refine ⟨_, _, c2, cvOld, cvNew, rfl, rfl, by rw [hg], hcls2, hidne, hcvOld, ?_, ?_, ?_, ?_,
    ?_, ?_, hact, ?_, hst, hcvNew, hbind, hlive⟩
  · rw [ht, hev]
  · rw [ht, hev]
    simp [eventsAfter, List.dropWhile]
  · rw [ht, hev]
    simp [eventsAfter, List.dropWhile]
  · rw [ht, hev]
    intro e he
    simp only [eventsAfter, List.dropWhile, ne_eq, reduceCtorEq, not_false_eq_true,
      decide_True, not_true_eq_false, decide_False, List.drop_succ_cons, List.drop_zero,
      List.mem_cons, List.mem_singleton, List.not_mem_nil, or_false] at he
    rcases he with rfl | rfl | rfl | rfl | rfl | rfl | rfl | rfl
    · simp [Event.target]
    · simpa [Event.target] using hidne
    · rcases modeLineEvent_target c2 m s.doubleBuffered with h1 | h1 <;> rw [h1]
      · simpa using hidne
      · simp
    · simpa [Event.target] using hidne
    · simpa [Event.target] using hidne
    · simp [Event.target]
    · simp [Event.target]
    · simp [Event.target]
  · rw [ht, hev]
    intro m1 args hmem
    simp only [List.mem_cons, reduceCtorEq, List.mem_singleton, List.not_mem_nil, or_false,
      false_or] at hmem
    simp [eventsAfter, List.dropWhile, hmem]
  · rw [ht, hev]
    intro m1 hm1
    subst hm1
    obtain ⟨args, ha⟩ := modeLineEvent_some c2 m1 s.doubleBuffered
    exact ⟨args, by simp [eventsAfter, List.dropWhile, ha]⟩
  · rw [ht]
    exact hdepth

/-- Instance of C5: depth 64 requested while the depth-16 controller is active. -/
theorem change_resolution_switch_witness :
    Reachable stateMode16 ∧
      stateMode16._VGAController = some ⟨0, .VGA16Controller⟩ ∧ Supported 64 ∧
      64 ≠ ControllerClass.VGA16Controller.colours ∧
      ∃ t ev c2 cvOld cvNew,
        t = (change_resolution fabFit 64 (some "800x600") stateMode16).2 ∧
        ev = newEvents stateMode16 t ∧
        (getVGAController 64 stateMode16).1 = some c2 ∧ c2.cls.colours = 64 ∧
        c2.id ≠ (⟨0, .VGA16Controller⟩ : Controller).id ∧
        stateMode16.canvas = some cvOld ∧
        ev = [.construct c2, .deleteCanvas cvOld.id,
          .end_ (⟨0, .VGA16Controller⟩ : Controller).id,
          .deleteController (⟨0, .VGA16Controller⟩ : Controller).id,
          .begin c2.id, modeLineEvent c2 (some "800x600") stateMode16.doubleBuffered,
          .enableBackgroundPrimitiveExecution c2.id true,
          .enableBackgroundPrimitiveTimeout c2.id false,
          .newCanvas cvNew, .debug_log .afterChangeOfCanvas, .debug_log .freeMemory] ∧
        Event.end_ (⟨0, .VGA16Controller⟩ : Controller).id ∈
          eventsAfter (.deleteCanvas cvOld.id) ev ∧
        Event.begin c2.id ∈ eventsAfter (.end_ (⟨0, .VGA16Controller⟩ : Controller).id) ev ∧
        (∀ e ∈ eventsAfter (.end_ (⟨0, .VGA16Controller⟩ : Controller).id) ev,
          e.target ≠ some (⟨0, .VGA16Controller⟩ : Controller).id) ∧
        (∀ m1 args, Event.setResolution c2.id m1 args ∈ ev →
          Event.setResolution c2.id m1 args ∈ eventsAfter (.begin c2.id) ev) ∧
        (∀ m1, some "800x600" = some m1 → ∃ args,
          Event.setResolution c2.id m1 args ∈ eventsAfter (.begin c2.id) ev) ∧
        t._VGAController = some c2 ∧ t._VGAColourDepth = 64 ∧ Started c2.id t.trace ∧
        t.canvas = some cvNew ∧ cvNew.displayController = c2.id ∧
        liveCanvases t.trace = [cvNew] :=
  ⟨Reachable.change_resolution _ _ _ _ Reachable.init, by decide, by decide, by decide,
    change_resolution_switch stateMode16 (Reachable.change_resolution _ _ _ _ Reachable.init)
      ⟨0, .VGA16Controller⟩ (by decide) 64 (by decide) (by decide) fabFit (some "800x600")⟩

/-- C6: `setPaletteItem(l, c)` adds one palette update, for entry `l` with colour
`c` on the controller class of the current depth, when the depth is 2, 4, 8 or 16 and
`l` is below it; in every other case (`l` equal to or above the depth, depth 64,
depth 255, any other depth) it returns the state as it was. -/
theorem setPaletteItem_effect (l : Nat) (c : RGB888) (s : State) :
    ((getVGAColourDepth s = 2 ∨ getVGAColourDepth s = 4 ∨ getVGAColourDepth s = 8 ∨
        getVGAColourDepth s = 16) ∧ l < getVGAColourDepth s →
      ∃ cls : ControllerClass, cls.colours = getVGAColourDepth s ∧
        setPaletteItem l c s = emit (.setPaletteItem cls l c) s) ∧
    (¬ ((getVGAColourDepth s = 2 ∨ getVGAColourDepth s = 4 ∨ getVGAColourDepth s = 8 ∨
        getVGAColourDepth s = 16) ∧ l < getVGAColourDepth s) →
      setPaletteItem l c s = s) := by
  unfold setPaletteItem getVGAColourDepth
  dsimp only
  constructor
  · rintro ⟨hd | hd | hd | hd, hl⟩
    · exact ⟨.VGA2Controller, hd.symm, by rw [if_pos hl, hd]⟩
    · exact ⟨.VGA4Controller, hd.symm, by rw [if_pos hl, hd]⟩
    · exact ⟨.VGA8Controller, hd.symm, by rw [if_pos hl, hd]⟩
    · exact ⟨.VGA16Controller, hd.symm, by rw [if_pos hl, hd]⟩
  · intro hn
    by_cases hl : l < s._VGAColourDepth
    · rw [if_pos hl]
      split
      all_goals first
        | rfl
        | exact absurd ⟨by simp [*], hl⟩ hn
    · rw [if_neg hl]

/-- Instance of C6: entries 15 and 16 in the 16-colour mode, and entry 3 at program
start (depth 255). -/
theorem setPaletteItem_effect_witness :
    (∃ cls : ControllerClass, cls.colours = getVGAColourDepth stateMode16 ∧
      setPaletteItem 15 ⟨255, 0, 0⟩ stateMode16 =
        emit (.setPaletteItem cls 15 ⟨255, 0, 0⟩) stateMode16) ∧
    setPaletteItem 16 ⟨255, 0, 0⟩ stateMode16 = stateMode16 ∧
    setPaletteItem 3 ⟨255, 0, 0⟩ State.init = State.init :=
  ⟨(setPaletteItem_effect 15 ⟨255, 0, 0⟩ stateMode16).1 (by decide),
    (setPaletteItem_effect 16 ⟨255, 0, 0⟩ stateMode16).2 (by decide),
    (setPaletteItem_effect 3 ⟨255, 0, 0⟩ State.init).2 (by decide)⟩

/-- C7: with `doubleBuffered == false`, canvas or not, `switchBuffer` returns
normally with the state as it was (no call on the canvas); with
`doubleBuffered == true` and a canvas it returns normally with exactly one
`swapBuffers` on that canvas added to the trace and nothing else changed. -/
theorem switchBuffer_effect (s : State) :
    (s.doubleBuffered = false → switchBuffer s = .ok s) ∧
    (∀ cv, s.doubleBuffered = true → s.canvas = some cv →
      switchBuffer s = .ok { s with trace := s.trace ++ [Event.swapBuffers cv.id] }) := by
  constructor
  · intro h
    simp [switchBuffer, h]
  · intro cv h hcv
    simp [switchBuffer, h, hcv, emit]

/-- Instance of C7: the 16-colour mode with the flag clear and with the flag set. -/
theorem switchBuffer_effect_witness :
    switchBuffer stateMode16 = .ok stateMode16 ∧
      switchBuffer { stateMode16 with doubleBuffered := true } =
        .ok { stateMode16 with
          doubleBuffered := true
          trace := stateMode16.trace ++ [Event.swapBuffers 1] } :=
  ⟨(switchBuffer_effect stateMode16).1 (by decide),
    (switchBuffer_effect { stateMode16 with doubleBuffered := true }).2 ⟨1, 0⟩ rfl (by decide)⟩

/-! ## Operations without a canvas, the selector, and the invariant -/

/-- A call that returned 1 left the state as it was. -/
theorem change_resolution_rejected (fab : FabGL) (colours : Nat) (modeLine : Option String)
    (s : State) (h : (change_resolution fab colours modeLine s).1 = 1) :
    (change_resolution fab colours modeLine s).2 = s := by
  rw [change_resolution_eq] at h ⊢
  rcases getVGAController_cases colours s with ⟨c, -, -, hg⟩ | ⟨-, -, cls, -, hg⟩ | ⟨-, -, hg⟩
  · rw [hg] at h
    simp only at h
    split at h <;> simp at h
  · rw [hg] at h
    simp only [make_shared_controller] at h
    split at h <;> simp at h
  · rw [hg]

theorem NoModeApplied.pointers_null {s : State} (h : NoModeApplied s) :
    s.canvas = none ∧ s._VGAController = none := by
  induction h with
  | init => exact ⟨rfl, rfl⟩
  | rejected fab colours modeLine s _ h1 ih =>
    rw [change_resolution_rejected fab colours modeLine s h1]
    exact ih
  | doubleBuffered b s _ ih => exact ih

/-- C8, as stated, fails: at program start, where no mode has been applied,
`waitPlotCompletion` dereferences the empty `canvas` pointer for either value of
`waitForVSync`, and so does `switchBuffer` once `doubleBuffered` is true. -/
theorem no_mode_canvas_dereferenced :
    NoModeApplied State.init ∧
      waitPlotCompletion false State.init = .error .nullCanvas ∧
      waitPlotCompletion true State.init = .error .nullCanvas ∧
      NoModeApplied { State.init with doubleBuffered := true } ∧
      switchBuffer { State.init with doubleBuffered := true } = .error .nullCanvas :=
  ⟨.init, rfl, rfl, .doubleBuffered true _ .init, rfl⟩

/-- C8, amended: in every state in which no mode has been applied (program start,
after any `change_resolution` calls that returned 1, for either value of
`doubleBuffered`) both pointers are null; `switchBuffer` with `doubleBuffered == false`
returns normally with the state as it was and does not touch the canvas; `switchBuffer`
with `doubleBuffered == true`, and `waitPlotCompletion` for either `waitForVSync`,
dereference the empty `canvas` pointer.  No error value is produced by either. -/
theorem no_mode_canvas_operations (s : State) (h : NoModeApplied s) (waitForVSync : Bool) :
    s.canvas = none ∧ s._VGAController = none ∧
      waitPlotCompletion waitForVSync s = .error .nullCanvas ∧
      (s.doubleBuffered = true → switchBuffer s = .error .nullCanvas) ∧
      (s.doubleBuffered = false → switchBuffer s = .ok s) := by
  obtain ⟨hcv, hvc⟩ := h.pointers_null
  refine ⟨hcv, hvc, ?_, ?_, ?_⟩
  · simp [waitPlotCompletion, hcv]
  · intro hdb
    simp [switchBuffer, hdb, hcv]
  · intro hdb
    simp [switchBuffer, hdb]

/-- Instance of C8 as amended: the state after a rejected call with colours 255. -/
theorem no_mode_canvas_operations_witness :
    NoModeApplied (change_resolution fabFit 255 (some "800x600") State.init).2 ∧
      (change_resolution fabFit 255 (some "800x600") State.init).2.canvas = none ∧
      waitPlotCompletion true (change_resolution fabFit 255 (some "800x600") State.init).2 =
        .error .nullCanvas ∧
      switchBuffer (change_resolution fabFit 255 (some "800x600") State.init).2 =
        .ok (change_resolution fabFit 255 (some "800x600") State.init).2 :=
  ⟨.rejected _ _ _ _ .init (by decide),
    (no_mode_canvas_operations _ (.rejected fabFit 255 (some "800x600") _ .init (by decide))
      true).1,
    (no_mode_canvas_operations _ (.rejected fabFit 255 (some "800x600") _ .init (by decide))
      true).2.2.1,
    (no_mode_canvas_operations _ (.rejected fabFit 255 (some "800x600") _ .init (by decide))
      true).2.2.2.2 (by decide)⟩

/-- What does hold of `getVGAController`: it changes neither the active controller,
the recorded depth, the canvas nor the buffering flag, and the only event it can add
is the construction of the controller it returns. -/
theorem getVGAController_frame (colours : Nat) (s : State) :
    (getVGAController colours s).2._VGAController = s._VGAController ∧
      (getVGAController colours s).2._VGAColourDepth = s._VGAColourDepth ∧
      (getVGAController colours s).2.canvas = s.canvas ∧
      (getVGAController colours s).2.doubleBuffered = s.doubleBuffered ∧
      (newEvents s (getVGAController colours s).2 = [] ∨
        ∃ c, (getVGAController colours s).1 = some c ∧
          newEvents s (getVGAController colours s).2 = [.construct c]) := by
  rcases getVGAController_cases colours s with ⟨c, -, -, hg⟩ | ⟨-, -, cls, -, hg⟩ | ⟨-, -, hg⟩
  · rw [hg]
    simp [newEvents]
  · rw [hg]
    refine ⟨rfl, rfl, rfl, rfl, Or.inr ⟨⟨s.nextId, cls⟩, rfl, ?_⟩⟩
    exact newEvents_of_trace rfl
  · rw [hg]
    simp [newEvents]

/-- C9 fails on the code: at program start two successive `getVGAController(2)`
calls, with no mode change between them, each construct a `VGA2Controller` and return
two different objects; the same happens for depth 64 while the depth-16 controller is
active.  Only a request for the depth of the active controller returns one object
twice. -/
theorem getVGAController_not_singleton :
    (getVGAController 2 State.init).1 = some ⟨0, .VGA2Controller⟩ ∧
      (getVGAController 2 (getVGAController 2 State.init).2).1 = some ⟨1, .VGA2Controller⟩ ∧
      (getVGAController 2 (getVGAController 2 State.init).2).2.trace =
        [.construct ⟨0, .VGA2Controller⟩, .construct ⟨1, .VGA2Controller⟩] ∧
      (getVGAController 2 (getVGAController 2 State.init).2).2._VGAController = none ∧
      (getVGAController 64 stateMode16).1 = some ⟨2, .VGAController⟩ ∧
      (getVGAController 64 (getVGAController 64 stateMode16).2).1 =
        some ⟨3, .VGAController⟩ ∧
      newEvents stateMode16 (getVGAController 64 (getVGAController 64 stateMode16).2).2 =
        [.construct ⟨2, .VGAController⟩, .construct ⟨3, .VGAController⟩] ∧
      (getVGAController 16 stateMode16).1 = some ⟨0, .VGA16Controller⟩ ∧
      (getVGAController 16 (getVGAController 16 stateMode16).2).1 =
        some ⟨0, .VGA16Controller⟩ := by
  decide

/-- C10: in every reachable state, (i) with no active controller there is no canvas
and `getVGAColourDepth()` is 255; (ii) with an active controller the depth is one of
2, 4, 8, 16, 64 and is the depth the controller was constructed for, the controller
was constructed, has had `begin()` and no `end()`, and a canvas exists, is bound to
that controller, and is the only canvas that exists. -/
theorem reachable_invariant (s : State) (h : Reachable s) :
    (s._VGAController = none → s.canvas = none ∧ getVGAColourDepth s = 255) ∧
    (∀ c, s._VGAController = some c →
      Supported (getVGAColourDepth s) ∧ c.cls.colours = getVGAColourDepth s ∧
      Event.construct c ∈ s.trace ∧ Started c.id s.trace ∧
      ∃ cv, s.canvas = some cv ∧ cv.displayController = c.id ∧
        liveCanvases s.trace = [cv]) := by
  have hinv := h.inv
  refine ⟨hinv.noController, fun c hc => ?_⟩
  obtain ⟨h1, h2, h3, h4, cv, hcv, hbind⟩ := hinv.active c hc
  refine ⟨h1, h2, h3, h4, cv, hcv, hbind, ?_⟩
  have := hinv.live
  rwa [hcv] at this

/-- Instance of C10: the state after depth 16 and then depth 64 with a null mode line. -/
theorem reachable_invariant_witness :
    Reachable (change_resolution fabShort 64 none stateMode16).2 ∧
      ((change_resolution fabShort 64 none stateMode16).2._VGAController = none →
        (change_resolution fabShort 64 none stateMode16).2.canvas = none ∧
          getVGAColourDepth (change_resolution fabShort 64 none stateMode16).2 = 255) ∧
      (∀ c, (change_resolution fabShort 64 none stateMode16).2._VGAController = some c →
        Supported (getVGAColourDepth (change_resolution fabShort 64 none stateMode16).2) ∧
        c.cls.colours = getVGAColourDepth (change_resolution fabShort 64 none stateMode16).2 ∧
        Event.construct c ∈ (change_resolution fabShort 64 none stateMode16).2.trace ∧
        Started c.id (change_resolution fabShort 64 none stateMode16).2.trace ∧
        ∃ cv, (change_resolution fabShort 64 none stateMode16).2.canvas = some cv ∧
          cv.displayController = c.id ∧
          liveCanvases (change_resolution fabShort 64 none stateMode16).2.trace = [cv]) :=
  ⟨.change_resolution _ _ _ _ (.change_resolution _ _ _ _ .init),
    reachable_invariant _ (.change_resolution _ _ _ _ (.change_resolution _ _ _ _ .init))⟩

end AgonScreen
